import Mathlib

set_option maxHeartbeats 1000000

/- Shallow embedding of src/frontend/src-tauri/src/main.rs (the Eve-flipper
   Launcher).  The setup closure resolves the sidecar binary, spawns it with a
   fixed argument list, and on either failure shows a platform error report and
   exits with status 1.  External effects (the sidecar lookup and the OS spawn)
   are modelled as the fields of an environment record; the observable actions
   of a run are collected as a trace of events. -/

/-- Fixed logical name of the backend binary, from the source call
app.shell().sidecar("eve-flipper-backend"). -/
def backendBinaryName : String := "eve-flipper-backend"

/-- Fixed argument list, from the source call sidecar.args(["--port", "13370"]). -/
def spawnArgs : List String := ["--port", "13370"]

/-- Fixed text of the resolution-failure message, from the format string in the
first Err arm of the setup closure; the underlying lookup error is appended
after it. -/
def binaryNotFoundText : String :=
  "Backend binary not found. Run from the folder that contains eve-flipper-backend.exe.\n\n"

/-- Fixed text of the spawn-failure message, from the format string in the
second Err arm of the setup closure; the underlying OS error is appended
after it. -/
def spawnFailedText : String :=
  "Failed to start backend server.\n\n"

/-- Flag value MB_ICONERROR of the Windows API, passed to MessageBoxW in
the Windows variant of show_error. -/
def MB_ICONERROR : Nat := 16

/-- UTF-16 code units of one character, as produced by encode_utf16 in the
Windows variant of show_error: one unit below 0x10000, a surrogate
pair above. -/
def encodeUtf16Char (c : Char) : List Nat :=
  let v := c.toNat
  if v < 0x10000 then [v]
  else
    let w := v - 0x10000
    [0xD800 + w / 0x400, 0xDC00 + w % 0x400]

/-- UTF-16 encoding of a string, code unit by code unit. -/
def encodeUtf16 (s : String) : List Nat :=
  s.data.foldr (fun c acc => encodeUtf16Char c ++ acc) []

/-- One invocation of the error-reporting primitive: either a MessageBoxW call
(null owner window, wide text, wide title, flags) on Windows, or a write of a
line to the standard error stream elsewhere. -/
inductive ErrorReport where
  | dialog (hwnd : Option Nat) (textW : List Nat) (titleW : List Nat) (flags : Nat)
  | stderrWrite (bytes : String)
deriving DecidableEq

/-- Windows variant of show_error: MessageBoxW with a null owner window, the
message encoded to UTF-16 with a trailing null unit appended by chain(Some(0)),
the title literal "EVE Flipper\0" encoded to UTF-16, and MB_ICONERROR. -/
def show_error_windows (msg : String) : ErrorReport :=
  ErrorReport.dialog none (encodeUtf16 msg ++ [0])
    (encodeUtf16 "EVE Flipper\x00") MB_ICONERROR

/-- Non-Windows variant of show_error: eprintln with the format string
"EVE Flipper error: {}" writes the fixed label, the message and a newline to
the standard error stream. -/
def show_error_other (msg : String) : ErrorReport :=
  ErrorReport.stderrWrite ("EVE Flipper error: " ++ msg ++ "\n")

/-- Fixed label that the non-Windows show_error puts before the message. -/
def stderrLabel : String := "EVE Flipper error: "

/-- Opaque sidecar command value returned by a successful lookup. -/
structure SidecarHandle where
  id : Nat
deriving DecidableEq

/-- External outcomes a run can meet: the result of the sidecar lookup and the
result of the spawn, each an Err diagnostic rendered to a string or a success
value.  A spawn success is the pair (receiver, child handle) that the source
binds as (mut _rx, _child). -/
structure Env where
  sidecarResult : Except String SidecarHandle
  spawnResult : Except String (Nat × Nat)

/-- Observable actions of a run of the setup closure. -/
inductive Event where
  | sidecarLookup (name : String)
  | spawnAttempt (args : List String)
  | showError (msg : String)
  | exitCall (code : Nat)
  | dropHandle (name : String)
deriving DecidableEq

/-- How the setup closure ends: either std::process::exit with a code, or a
normal return of a Result value to the host framework (after which the
application keeps running its event loop). -/
inductive SetupOutcome where
  | exited (code : Nat)
  | returned (r : Except String Unit)

/-- The setup closure of main, branch for branch.  On a lookup failure it shows
the resolution message with the underlying error appended and exits 1; on a
spawn failure it shows the spawn message with the underlying error appended and
exits 1; on success it returns Ok(()), at which point the local bindings
_child and _rx fall out of scope and are dropped (in reverse declaration
order), which the trace records as two dropHandle events. -/
def setup (env : Env) : List Event × SetupOutcome :=
  match env.sidecarResult with
  | Except.error e =>
      ([Event.sidecarLookup backendBinaryName,
        Event.showError (binaryNotFoundText ++ e),
        Event.exitCall 1],
       SetupOutcome.exited 1)
  | Except.ok _s =>
      match env.spawnResult with
      | Except.error e =>
          ([Event.sidecarLookup backendBinaryName,
            Event.spawnAttempt spawnArgs,
            Event.showError (spawnFailedText ++ e),
            Event.exitCall 1],
           SetupOutcome.exited 1)
      | Except.ok _p =>
          ([Event.sidecarLookup backendBinaryName,
            Event.spawnAttempt spawnArgs,
            Event.dropHandle "_child",
            Event.dropHandle "_rx"],
           SetupOutcome.returned (Except.ok ()))

/-- The whole Launcher run.  The source main never reads OS environment
variables or its own command line; both are taken as explicit parameters here
only so that independence from them can be stated, and the body ignores them
exactly as the source does. -/
def runLauncher (_osEnv : List (String × String)) (_argv : List String)
    (env : Env) : List Event × SetupOutcome :=
  setup env

/-- True on the events that are invocations of show_error. -/
def isShowErrorEvent : Event → Bool
  | Event.showError _ => true
  | _ => false

/-- Number of show_error invocations in a trace. -/
def countFatalReports (t : List Event) : Nat :=
  t.countP isShowErrorEvent

/-- Arguments of the first spawn attempt in a trace, if any. -/
def spawnAttemptArgs : List Event → Option (List String)
  | [] => none
  | Event.spawnAttempt a :: _ => some a
  | _ :: rest => spawnAttemptArgs rest

/-- Wide title of a dialog report, if the report is a dialog. -/
def reportTitleW : ErrorReport → Option (List Nat)
  | ErrorReport.dialog _ _ t _ => some t
  | _ => none

/-- Flags of a dialog report, if the report is a dialog. -/
def reportFlags : ErrorReport → Option Nat
  | ErrorReport.dialog _ _ _ f => some f
  | _ => none

/-- Concrete environment in which both the lookup and the spawn succeed. -/
def envOkOk : Env :=
  { sidecarResult := Except.ok ⟨0⟩, spawnResult := Except.ok (0, 0) }

/-- Concrete environment in which the sidecar lookup fails. -/
def envErr : Env :=
  { sidecarResult := Except.error "lookup failed", spawnResult := Except.ok (0, 0) }

/-- Concrete environment in which the lookup succeeds and the spawn fails. -/
def envOkErr : Env :=
  { sidecarResult := Except.ok ⟨0⟩, spawnResult := Except.error "os error 13" }

/-- Helper: any spawn attempt in any run carries exactly spawnArgs. -/
theorem spawnAttemptArgs_fixed (env : Env) (x : List String)
    (h : spawnAttemptArgs (setup env).1 = some x) : x = spawnArgs := by
  cases h1 : env.sidecarResult with
  | error e => simp [setup, h1, spawnAttemptArgs] at h
  | ok s =>
    cases h2 : env.spawnResult with
    | error e =>
      simp [setup, h1, h2, spawnAttemptArgs] at h
      exact h.symm
    | ok p =>
      simp [setup, h1, h2, spawnAttemptArgs] at h
      exact h.symm

/-- C1: whenever binary resolution succeeds, the argument list of the spawn is
exactly the two-element sequence ["--port", "13370"], in that order, with no
other arguments. -/
theorem c1_spawn_args_exact (env : Env) (s : SidecarHandle)
    (h : env.sidecarResult = Except.ok s) :
    spawnAttemptArgs (setup env).1 = some spawnArgs ∧
    spawnArgs = ["--port", "13370"] := by
  constructor
  · cases h2 : env.spawnResult with
    | error e => simp [setup, h, h2, spawnAttemptArgs]
    | ok p => simp [setup, h, h2, spawnAttemptArgs]
  · rfl

/-- Witness for C1 at a concrete successful environment. -/
theorem c1_spawn_args_exact_witness :
    spawnAttemptArgs (setup envOkOk).1 = some spawnArgs ∧
    spawnArgs = ["--port", "13370"] :=
  c1_spawn_args_exact envOkOk ⟨0⟩ rfl

/-- C2: when the sidecar lookup fails, the run shows exactly one error report,
whose message is the resolution-failure text with the underlying lookup error
appended, never attempts a spawn, and exits with status 1. -/
theorem c2_binary_not_found_path (env : Env) (e : String)
    (h : env.sidecarResult = Except.error e) :
    (setup env).1 = [Event.sidecarLookup backendBinaryName,
                     Event.showError (binaryNotFoundText ++ e),
                     Event.exitCall 1] ∧
    countFatalReports (setup env).1 = 1 ∧
    spawnAttemptArgs (setup env).1 = none ∧
    (setup env).2 = SetupOutcome.exited 1 := by
  refine ⟨?_, ?_, ?_, ?_⟩ <;>
    simp [setup, h, countFatalReports, isShowErrorEvent, spawnAttemptArgs]

/-- Witness for C2 at a concrete environment whose lookup fails. -/
theorem c2_binary_not_found_path_witness :
    (setup envErr).1 = [Event.sidecarLookup backendBinaryName,
                        Event.showError (binaryNotFoundText ++ "lookup failed"),
                        Event.exitCall 1] ∧
    countFatalReports (setup envErr).1 = 1 ∧
    spawnAttemptArgs (setup envErr).1 = none ∧
    (setup envErr).2 = SetupOutcome.exited 1 :=
  c2_binary_not_found_path envErr "lookup failed" rfl

/-- C3: when resolution succeeds and the spawn fails, the run shows exactly one
error report, whose message is the spawn-failure text with the underlying OS
error appended, and exits with status 1. -/
theorem c3_spawn_failed_path (env : Env) (s : SidecarHandle) (e : String)
    (h1 : env.sidecarResult = Except.ok s)
    (h2 : env.spawnResult = Except.error e) :
    (setup env).1 = [Event.sidecarLookup backendBinaryName,
                     Event.spawnAttempt spawnArgs,
                     Event.showError (spawnFailedText ++ e),
                     Event.exitCall 1] ∧
    countFatalReports (setup env).1 = 1 ∧
    (setup env).2 = SetupOutcome.exited 1 := by
  refine ⟨?_, ?_, ?_⟩ <;>
    simp [setup, h1, h2, countFatalReports, isShowErrorEvent]

/-- Witness for C3 at a concrete environment whose spawn fails. -/
theorem c3_spawn_failed_path_witness :
    (setup envOkErr).1 = [Event.sidecarLookup backendBinaryName,
                          Event.spawnAttempt spawnArgs,
                          Event.showError (spawnFailedText ++ "os error 13"),
                          Event.exitCall 1] ∧
    countFatalReports (setup envOkErr).1 = 1 ∧
    (setup envOkErr).2 = SetupOutcome.exited 1 :=
  c3_spawn_failed_path envOkErr ⟨0⟩ "os error 13" rfl rfl

/-- C4: when both the lookup and the spawn succeed, the run never shows an
error report, the spawn is attempted with the fixed arguments so the child
handle of the hypothesis is live, and setup returns Ok(()). -/
theorem c4_success_no_fatal (env : Env) (s : SidecarHandle) (p : Nat × Nat)
    (h1 : env.sidecarResult = Except.ok s)
    (h2 : env.spawnResult = Except.ok p) :
    countFatalReports (setup env).1 = 0 ∧
    spawnAttemptArgs (setup env).1 = some spawnArgs ∧
    (setup env).2 = SetupOutcome.returned (Except.ok ()) := by
  refine ⟨?_, ?_, ?_⟩ <;>
    simp [setup, h1, h2, countFatalReports, isShowErrorEvent, spawnAttemptArgs]

/-- Witness for C4 at a concrete environment in which both steps succeed. -/
theorem c4_success_no_fatal_witness :
    countFatalReports (setup envOkOk).1 = 0 ∧
    spawnAttemptArgs (setup envOkOk).1 = some spawnArgs ∧
    (setup envOkOk).2 = SetupOutcome.returned (Except.ok ()) :=
  c4_success_no_fatal envOkOk ⟨0⟩ (0, 0) rfl rfl

/-- C5: in every run show_error is invoked at most once, and every run that
invokes it at all ends in the exit(1) call, so no second report can follow. -/
theorem c5_fatal_report_at_most_once (env : Env) :
    countFatalReports (setup env).1 ≤ 1 ∧
    (countFatalReports (setup env).1 = 0 ∨
     (setup env).2 = SetupOutcome.exited 1) := by
  cases h1 : env.sidecarResult with
  | error e =>
    refine ⟨?_, Or.inr ?_⟩ <;>
      simp [setup, h1, countFatalReports, isShowErrorEvent]
  | ok s =>
    cases h2 : env.spawnResult with
    | error e =>
      refine ⟨?_, Or.inr ?_⟩ <;>
        simp [setup, h1, h2, countFatalReports, isShowErrorEvent]
    | ok p =>
      refine ⟨?_, Or.inl ?_⟩ <;>
        simp [setup, h1, h2, countFatalReports, isShowErrorEvent]

/-- C6 counterexample: the bytes the non-Windows show_error writes to the
standard error stream are not byte-for-byte equal to the message passed in,
because a fixed label and a newline surround it. -/
theorem c6_stderr_not_verbatim :
    show_error_other "disk failure" ≠ ErrorReport.stderrWrite "disk failure" := by
  decide

/-- C6 amended: on the platform lacking native dialog support the bytes written
to the standard error stream are the fixed label, then the message verbatim,
then a newline, so the message appears byte-for-byte inside the line. -/
theorem c6_stderr_line_labeled_verbatim (msg : String) :
    show_error_other msg = ErrorReport.stderrWrite (stderrLabel ++ msg ++ "\n") :=
  rfl

/-- C7: at an environment in which both steps succeed, the bindings holding the
output-stream receiver and the child handle are dropped at the end of the setup
closure, while setup returns Ok(()) and the application keeps running, so the
handle is released well before the application exits. -/
theorem c7_handle_dropped_in_setup :
    (setup envOkOk).1 = [Event.sidecarLookup backendBinaryName,
                         Event.spawnAttempt spawnArgs,
                         Event.dropHandle "_child",
                         Event.dropHandle "_rx"] ∧
    (setup envOkOk).2 = SetupOutcome.returned (Except.ok ()) :=
  ⟨rfl, rfl⟩

/-- C8: for every message the Windows show_error raises a MessageBoxW dialog
with the fixed title "EVE Flipper" (null-terminated, as a wide string) and the
MB_ICONERROR flag; the other platforms write the labeled line to the standard
error stream; and in every run, any show_error event is immediately followed by
the exit(1) event, a non-zero status. -/
theorem c8_dialog_title_icon_then_exit (msg : String) (env : Env) (i : Nat)
    (m : String) (h : (setup env).1[i]? = some (Event.showError m)) :
    reportTitleW (show_error_windows msg) = some (encodeUtf16 "EVE Flipper" ++ [0]) ∧
    reportFlags (show_error_windows msg) = some MB_ICONERROR ∧
    show_error_other msg = ErrorReport.stderrWrite (stderrLabel ++ msg ++ "\n") ∧
    (setup env).1[i + 1]? = some (Event.exitCall 1) ∧ (1 : Nat) ≠ 0 := by
  refine ⟨?_, rfl, rfl, ?_, one_ne_zero⟩
  · simp [show_error_windows, reportTitleW, encodeUtf16, encodeUtf16Char]
  · cases h1 : env.sidecarResult with
    | error e =>
      rcases i with _ | _ | _ | _ | i <;> simp_all [setup, h1]
    | ok s =>
      cases h2 : env.spawnResult with
      | error e =>
        rcases i with _ | _ | _ | _ | i <;> simp_all [setup, h1, h2]
      | ok p =>
        rcases i with _ | _ | _ | _ | i <;> simp_all [setup, h1, h2]

/-- Witness for C8 at a concrete message and the concrete failing lookup. -/
theorem c8_dialog_title_icon_then_exit_witness :
    reportTitleW (show_error_windows "boom") = some (encodeUtf16 "EVE Flipper" ++ [0]) ∧
    reportFlags (show_error_windows "boom") = some MB_ICONERROR ∧
    show_error_other "boom" = ErrorReport.stderrWrite (stderrLabel ++ "boom" ++ "\n") ∧
    (setup envErr).1[1 + 1]? = some (Event.exitCall 1) ∧ (1 : Nat) ≠ 0 :=
  c8_dialog_title_icon_then_exit "boom" envErr 1
    (binaryNotFoundText ++ "lookup failed") rfl

/-- C9: the port is a constant of the program: two runs under arbitrary OS
environments and command lines that both reach a spawn attempt pass identical
argument lists, always ["--port", "13370"]; no input can change the port. -/
theorem c9_port_constant_across_runs
    (e1 : List (String × String)) (a1 : List String) (env1 : Env)
    (e2 : List (String × String)) (a2 : List String) (env2 : Env)
    (x1 x2 : List String)
    (h1 : spawnAttemptArgs (runLauncher e1 a1 env1).1 = some x1)
    (h2 : spawnAttemptArgs (runLauncher e2 a2 env2).1 = some x2) :
    x1 = x2 ∧ x1 = ["--port", "13370"] := by
  have g1 : x1 = spawnArgs := spawnAttemptArgs_fixed env1 x1 h1
  have g2 : x2 = spawnArgs := spawnAttemptArgs_fixed env2 x2 h2
  subst g1; subst g2; exact ⟨rfl, rfl⟩

/-- Witness for C9: two runs with different OS environments and command lines. -/
theorem c9_port_constant_across_runs_witness :
    spawnArgs = spawnArgs ∧ spawnArgs = ["--port", "13370"] :=
  c9_port_constant_across_runs [] [] envOkOk
    [("EVE_PORT", "9999")] ["--port", "1"] envOkErr
    spawnArgs spawnArgs rfl rfl

/-- C10: the setup callback never hands an Err to the host framework: every run
either terminates the process via exit(1) or returns the success value Ok(()). -/
theorem c10_setup_never_returns_err (env : Env) :
    (setup env).2 = SetupOutcome.exited 1 ∨
    (setup env).2 = SetupOutcome.returned (Except.ok ()) := by
  cases h1 : env.sidecarResult with
  | error e => exact Or.inl (by simp [setup, h1])
  | ok s =>
    cases h2 : env.spawnResult with
    | error e => exact Or.inl (by simp [setup, h1, h2])
    | ok p => exact Or.inr (by simp [setup, h1, h2])
